import Mathlib

set_option maxRecDepth 10000

/-!
Verification of the AuroraAssetConverter container format and scanner.

The definitions below are a shallow embedding of the Python sources:
  - `convert.py` (class AuroraAssetFile: import_image / save_asset / extract_image),
  - `aurora_converter/models/asset_file.py` (the second AuroraAssetFile variant),
  - `scanner.py` (class AssetScanner: scan_asset / scan_folder).
Bytes are modelled as `Nat` values (each < 256 in every produced buffer); byte
buffers as `List Nat`.  Python exceptions on the decode path are modelled with
`Except String`; the scanner captures exceptions into its issue list, exactly
as the `try/except` in `scan_asset` does.
-/

namespace Aurora

/-- struct.pack of a u32 in little-endian byte order (the source only ever
packs values below 2^32). -/
def packLE (v : Nat) : List Nat :=
  [v % 256, v / 2 ^ 8 % 256, v / 2 ^ 16 % 256, v / 2 ^ 24 % 256]

/-- struct.pack of a u32 in big-endian byte order. -/
def packBE (v : Nat) : List Nat :=
  [v / 2 ^ 24 % 256, v / 2 ^ 16 % 256, v / 2 ^ 8 % 256, v % 256]

/-- struct.unpack of a u32 little-endian from 4 bytes of a buffer
(missing bytes read as 0; all modelled reads are guarded by length checks
that mirror the source). -/
def readLE (d : List Nat) (off : Nat) : Nat :=
  d.getD off 0 + 2 ^ 8 * d.getD (off + 1) 0 + 2 ^ 16 * d.getD (off + 2) 0 +
    2 ^ 24 * d.getD (off + 3) 0

/-- `_swap_uint32` / `_swap32` from the sources:
struct.unpack of a big-endian u32 from the little-endian packing, i.e. a
byte-order reversal of a u32. -/
def swapUInt32 (v : Nat) : Nat :=
  v % 256 * 2 ^ 24 + v / 2 ^ 8 % 256 * 2 ^ 16 + v / 2 ^ 16 % 256 * 2 ^ 8 +
    v / 2 ^ 24 % 256

/-- Reading 4 bytes little-endian and byte-swapping the result is a
big-endian read; the sources always compose the two this way. -/
def readBE (d : List Nat) (off : Nat) : Nat :=
  swapUInt32 (readLE d off)

def MAGIC : Nat := 0x52584541
def VERSION : Nat := 1
def HEADER_SIZE : Nat := 20
def ENTRY_SIZE : Nat := 64
def ALIGNMENT : Nat := 2048

/-- One slot of the 25-entry table, as the dicts stored in `self.entries`. -/
structure Entry where
  offset : Nat
  size : Nat
  texture_header : List Nat
  video_data : List Nat
  deriving Repr, DecidableEq

/-- A fresh empty entry as built in `__init__`. -/
def Entry.empty : Entry :=
  { offset := 0, size := 0, texture_header := List.replicate 52 0, video_data := [] }

instance : Inhabited Entry := ⟨Entry.empty⟩

/-- In-memory state of `AuroraAssetFile` (its container-relevant fields). -/
structure AssetFile where
  flags : Nat
  screenshot_count : Nat
  entries : List Entry
  deriving Repr, DecidableEq

/-- A fresh `AuroraAssetFile`: flags 0, screenshot count 0, 25 empty entries. -/
def AssetFile.init : AssetFile :=
  { flags := 0, screenshot_count := 0, entries := List.replicate 25 Entry.empty }

/-- `_update_screenshot_count` (convert.py lines 98-104): the highest
ordinal (slot - 5 + 1) among slots 5..24 whose stored `video_data` is
non-empty. -/
def updateScreenshotCount (entries : List Entry) : Nat :=
  (List.range 20).foldl
    (fun m j =>
      if ((entries.getD (5 + j) Entry.empty).video_data).length > 0 then max m (j + 1)
      else m)
    0

/-- The successful tail of `import_image` (convert.py lines 146-161): flag
update, then `_update_screenshot_count` (which runs BEFORE the new entry is
stored, exactly as in the source), then the store of header and payload into
`entries[asset_type]`. -/
def importEntry (a : AssetFile) (t : Nat) (header video : List Nat) : AssetFile :=
  let fl :=
    if t = 2 then a.flags ||| 0x04
    else if t = 4 then a.flags ||| 0x10
    else if t = 0 ∨ t = 1 then a.flags ||| 0x01
    else if 5 ≤ t ∧ t ≤ 24 then a.flags ||| (1 <<< t)
    else a.flags
  let sc :=
    if 5 ≤ t ∧ t ≤ 24 then updateScreenshotCount a.entries else a.screenshot_count
  let e := a.entries.getD t Entry.empty
  { flags := fl, screenshot_count := sc,
    entries := a.entries.set t { e with texture_header := header, video_data := video } }

/-- `data_size` as computed in `save_asset`: sum of the stored payload
lengths. -/
def dataSize (a : AssetFile) : Nat :=
  (a.entries.map (fun e => e.video_data.length)).sum

/-- Length of the header plus entry table as written by `save_asset`
(20 bytes plus 12 + len(texture_header) bytes per entry). -/
def headerTableLen (a : AssetFile) : Nat :=
  20 + (a.entries.map (fun e => 12 + e.texture_header.length)).sum

/-- `padding_size = 2048 - (current_pos % 2048)` (convert.py line 189; note
the source adds a full 2048 bytes when the position is already aligned). -/
def paddingLen (a : AssetFile) : Nat :=
  ALIGNMENT - headerTableLen a % ALIGNMENT

/-- The individual `f.write` calls performed by `save_asset`
(convert.py lines 168-197), in order: 5 header fields, then 4 writes per
entry (offset written as the literal 0, size as len(video_data),
extended info 0, texture header), then the padding block, then the payload
of every populated entry. -/
def saveChunks (a : AssetFile) : List (List Nat) :=
  [packBE MAGIC, packLE VERSION, packLE (dataSize a), packLE a.flags,
    packLE a.screenshot_count] ++
  (a.entries.flatMap fun e =>
    [packLE 0, packLE e.video_data.length, packLE 0, e.texture_header]) ++
  [List.replicate (paddingLen a) 0] ++
  ((a.entries.filter fun e => e.video_data.length > 0).map fun e => e.video_data)

/-- The complete byte sequence produced by `save_asset`. -/
def saveAsset (a : AssetFile) : List Nat :=
  packBE MAGIC ++ packLE VERSION ++ packLE (dataSize a) ++ packLE a.flags ++
    packLE a.screenshot_count ++
  (a.entries.flatMap fun e =>
    packLE 0 ++ packLE e.video_data.length ++ packLE 0 ++ e.texture_header) ++
  List.replicate (paddingLen a) 0 ++
  (a.entries.flatMap fun e => e.video_data)

/-- `_calculate_data_offset` (convert.py lines 94-96), with `n` the length of
`self.entries` (always 25). -/
def calculateDataOffset (n : Nat) : Nat :=
  let off := HEADER_SIZE + n * ENTRY_SIZE
  off + (ALIGNMENT - off % ALIGNMENT)

/-- What `extract_image` yields before the external codec is invoked: the
header fields it stores on `self` and, for the requested slot, either
`none` (size 0) or the decoded size, texture header and payload slice. -/
structure ExtractOut where
  flags : Nat
  ssCount : Nat
  slot : Option (Nat × List Nat × List Nat)
  deriving Repr, DecidableEq

/-- The structural part of `extract_image` (convert.py lines 201-235; the
variant in asset_file.py lines 155-186 performs the identical checks and
reads).  Python `raise` is modelled as `Except.error` carrying the message. -/
def extractImage (d : List Nat) (t : Nat) : Except String ExtractOut :=
  if d.length < ALIGNMENT then .error "Invalid asset file size"
  else
    let magic := swapUInt32 (readLE d 0)
    let version := swapUInt32 (readLE d 4)
    if magic ≠ MAGIC then .error "Invalid asset file magic"
    else if version ≠ VERSION then .error "Unsupported asset file version"
    else
      let flags := swapUInt32 (readLE d 12)
      let ssCount := swapUInt32 (readLE d 16)
      let entryOffset := HEADER_SIZE + t * ENTRY_SIZE
      let off := swapUInt32 (readLE d entryOffset)
      let size := swapUInt32 (readLE d (entryOffset + 4))
      if size = 0 then .ok ⟨flags, ssCount, none⟩
      else
        let textureHeader := (d.drop (entryOffset + 12)).take 52
        let dataOffset := calculateDataOffset 25 + off
        let videoData := (d.drop dataOffset).take size
        .ok ⟨flags, ssCount, some (size, textureHeader, videoData)⟩

def isError {α β : Type} : Except α β → Bool
  | .error _ => true
  | .ok _ => false

instance {α β : Type} [DecidableEq α] [DecidableEq β] : DecidableEq (Except α β) := fun a b =>
  match a, b with
  | .error x, .error y =>
    if h : x = y then isTrue (by rw [h]) else isFalse (by simp [h])
  | .ok x, .ok y =>
    if h : x = y then isTrue (by rw [h]) else isFalse (by simp [h])
  | .error _, .ok _ => isFalse (by simp)
  | .ok _, .error _ => isFalse (by simp)

/-- Whether string `p` is a prefix of string `s` (stated on the character
lists so that it is kernel-computable). -/
def strHasPrefix (p s : String) : Bool :=
  p.data.isPrefixOf s.data

/-! ### The aurora_converter/models/asset_file.py variant -/

/-- The successful tail of `import_image` in asset_file.py (lines 53-91):
`self.flags` is first reset to 0 and then overwritten (not or-ed) with the
single flag of the imported type; `screenshot_count` is raised eagerly to the
new ordinal; the whole entry dict is replaced, with `size` set.  A type
outside every branch leaves `entry_idx` unassigned in the source
(NameError before the store), so only the flag reset survives. -/
def afImportEntry (a : AssetFile) (t : Nat) (header video : List Nat) : AssetFile :=
  if t = 2 then
    { flags := 0x04, screenshot_count := a.screenshot_count,
      entries := a.entries.set t ⟨0, video.length, header, video⟩ }
  else if t = 4 then
    { flags := 0x10, screenshot_count := a.screenshot_count,
      entries := a.entries.set t ⟨0, video.length, header, video⟩ }
  else if t = 0 ∨ t = 1 then
    { flags := 0x01, screenshot_count := a.screenshot_count,
      entries := a.entries.set t ⟨0, video.length, header, video⟩ }
  else if 5 ≤ t ∧ t ≤ 24 then
    { flags := 1 <<< t,
      screenshot_count := max a.screenshot_count (t - 5 + 1),
      entries := a.entries.set t ⟨0, video.length, header, video⟩ }
  else
    { a with flags := 0 }

/-- A Python file handle: the bytes written so far, and whether the handle
is still open.  `f.write` on a closed handle raises ValueError. -/
structure FileH where
  bytes : List Nat
  isOpen : Bool
  deriving Repr, DecidableEq

/-- One `f.write(chunk)` call. -/
def fwrite (f : FileH) (chunk : List Nat) : Except String FileH :=
  if f.isOpen then .ok { f with bytes := f.bytes ++ chunk }
  else .error "I/O operation on closed file"

/-- Run a sequence of writes, latching the first error; the bytes already
written stay on disk (this is what `open(..., "wb")` leaves behind when an
exception interrupts the writes). -/
def runWrites (f : FileH) (chunks : List (List Nat)) : FileH × Option String :=
  chunks.foldl
    (fun s ch =>
      match s with
      | (g, some e) => (g, some e)
      | (g, none) =>
        match fwrite g ch with
        | .ok g2 => (g2, none)
        | .error e => (g, some e))
    (f, none)

/-- The five header writes of asset_file.py `save_asset` (lines 106-112):
each u32 is passed through `_swap_uint32` before little-endian packing, and
`DataSize` is written as 0 (the later seek-back rewrite is never reached). -/
def afHeaderChunks (a : AssetFile) : List (List Nat) :=
  [packLE (swapUInt32 MAGIC), packLE (swapUInt32 VERSION), packLE (swapUInt32 0),
    packLE (swapUInt32 a.flags), packLE (swapUInt32 a.screenshot_count)]

/-- The writes asset_file.py `save_asset` attempts AFTER the `with` block
has closed the file (lines 117-146): the entry table, the seek-back DataSize
rewrite, the padding and the payloads.  All of them hit a closed handle, so
the first one raises and none of the bytes land on disk; they are listed for
completeness of the trace. -/
def afLateChunks (a : AssetFile) : List (List Nat) :=
  (a.entries.flatMap fun e =>
    [packLE (swapUInt32 e.offset), packLE (swapUInt32 e.size),
      packLE (swapUInt32 0), e.texture_header]) ++
  [packLE (swapUInt32 (dataSize a))] ++
  [List.replicate ((ALIGNMENT - (20 + 64 * 25) % ALIGNMENT) % ALIGNMENT) 0] ++
  ((a.entries.filter fun e => e.video_data ≠ []).map fun e => e.video_data)

/-- asset_file.py `save_asset` (lines 97-153): the `with open(...)` block
spans only the five header writes, so the handle is closed before the entry
table is written; the ValueError raised by the first late write is caught by
the surrounding `except`, which returns False.  The result is the returned
Bool together with the bytes left on disk. -/
def afSaveAsset (a : AssetFile) : Bool × List Nat :=
  let withBlock := runWrites ⟨[], true⟩ (afHeaderChunks a)
  let closed : FileH := { withBlock.1 with isOpen := false }
  let rest := runWrites closed (afLateChunks a)
  (rest.2.isNone, rest.1.bytes)

/-! ### The scanner (scanner.py) -/

/-- `EXPECTED_ENTRIES` (scanner.py line 36); `none` models the KeyError a
missing prefix raises on lookup. -/
def EXPECTED_ENTRIES (p : String) : Option Nat :=
  if p = "BK" then some 1
  else if p = "GC" then some 1
  else if p = "GL" then some 2
  else if p = "SS" then some 5
  else none

/-- `SIZE_THRESHOLDS` (scanner.py lines 32-35). -/
def SIZE_THRESHOLDS (p : String) : Option Nat :=
  if p = "BK" then some 983040
  else if p = "GC" then some 655360
  else if p = "GL" then some 83968
  else if p = "SS" then some 3276800
  else none

/-- `ASSET_PATTERNS` (scanner.py lines 37-43): the fixed signature table. -/
def ASSET_PATTERNS (meta : List Nat) : Option String :=
  if meta = [0x00, 0x59, 0xe4, 0xff] then some "Background"
  else if meta = [0x00, 0x4a, 0xe3, 0x83] then some "Boxart"
  else if meta = [0x00, 0x07, 0xe0, 0x3f] then some "Icon"
  else if meta = [0x00, 0x0b, 0xe1, 0xa3] then some "Banner"
  else if meta = [0x00, 0x46, 0x23, 0xe7] then some "Screenshot"
  else none

/-- `EXPECTED_TYPES` (scanner.py lines 44-47): the (prefix, slot) pairing
table. -/
def EXPECTED_TYPES (p : String) (i : Nat) : Option String :=
  if p = "GL" ∧ i = 0 then some "Icon"
  else if p = "GL" ∧ i = 1 then some "Banner"
  else if p = "GC" ∧ i = 2 then some "Boxart"
  else if p = "BK" ∧ i = 4 then some "Background"
  else none

/-- `_validate_metadata` (scanner.py lines 70-74).  The Python expression
compares `ASSET_PATTERNS.get(meta, "")` (always a str) with the expected
kind, which is None outside the table and outside SS slots 5..9 — and a str
never equals None, so that comparison is False for every signature. -/
def validateMetadata (p : String) (idx : Nat) (meta : List Nat) : Bool :=
  match (EXPECTED_TYPES p idx).orElse
      (fun _ => if p = "SS" ∧ 5 ≤ idx ∧ idx ≤ 9 then some "Screenshot" else none) with
  | none => false
  | some e => ((ASSET_PATTERNS meta).getD "") = e

/-- `_validate_size` (scanner.py lines 76-78) for an integer file size.
The source compares against `target * (1 ± 0.01)` in floating point; for
the four table targets the float bounds round (as doubles) to values whose
integer comparisons coincide with the exact rational bounds used here. -/
def validateSize (size : Nat) (p : String) : Bool :=
  match SIZE_THRESHOLDS p with
  | some target => 99 * target ≤ 100 * size ∧ 100 * size ≤ 101 * target
  | none => false

def hexChar (n : Nat) : Char :=
  if n < 10 then Char.ofNat (48 + n) else Char.ofNat (87 + n)

/-- Python bytes.hex(): two lowercase hex digits per byte. -/
def bytesHex (l : List Nat) : String :=
  String.join (l.map fun b => String.mk [hexChar (b / 16 % 16), hexChar (b % 16)])

/-- The entry loop of `scan_asset` (scanner.py lines 92-101).  The record of
slot `idx` occupies bytes 20 + 64*idx .. +63 of the file; a short read
(fewer than 64 remaining bytes) breaks out of the loop.  `entry[4:8]` and
`entry[48:52]` of the record are the file bytes at those offsets from the
record start.  Recursion is on the remaining iteration count (25 at entry). -/
def scanLoop (p : String) (d : List Nat) :
    Nat → Nat → Nat → List String → Nat × List String
  | 0, _, count, issues => (count, issues)
  | fuel + 1, idx, count, issues =>
    if d.length < 20 + 64 * idx + 64 then (count, issues)
    else
      let size := swapUInt32 (readLE d (20 + 64 * idx + 4))
      if 0 < size then
        let meta := (d.drop (20 + 64 * idx + 48)).take 4
        let issues2 :=
          if validateMetadata p idx meta then issues
          else issues ++ ["Invalid metadata at " ++ toString idx ++ ": " ++ bytesHex meta]
        scanLoop p d fuel (idx + 1) (count + 1) issues2
      else scanLoop p d fuel (idx + 1) count issues

/-- `scan_asset` (scanner.py lines 80-110).  Any exception inside the `try`
is captured as a "Read error: ..." issue (the modelled message abridges
Python's `str(e)`): a file shorter than 4 bytes fails the magic unpack, a
file shorter than 20 bytes fails the flags unpack, and an unknown prefix
raises KeyError at the `EXPECTED_ENTRIES[prefix]` lookup.  The flags and
screenshot-count words are read in the source but never used.  The file size
handed to `_validate_size` is the buffer length (`path.stat().st_size`). -/
def scanAsset (name : String) (d : List Nat) : Bool × List String :=
  if d.length < 4 then (false, ["Read error: struct.error"])
  else if swapUInt32 (readLE d 0) ≠ MAGIC then (false, ["Invalid magic"])
  else if d.length < 20 then (false, ["Read error: struct.error"])
  else
    let pfx := name.take 2
    let r := scanLoop pfx d 25 0 0 []
    match EXPECTED_ENTRIES pfx with
    | none => (false, r.2 ++ ["Read error: KeyError " ++ pfx])
    | some expected =>
      let issues2 :=
        if r.1 ≠ expected then
          r.2 ++ ["Expected " ++ toString expected ++ " entries, found " ++ toString r.1]
        else r.2
      let issues3 :=
        if validateSize d.length pfx then issues2
        else issues2 ++ ["Size mismatch for " ++ pfx]
      (issues3.isEmpty, issues3)

/-- One on-disk asset file as seen by the folder scan: its basename and its
contents (whose length is its stat size). -/
structure FileRec where
  name : String
  data : List Nat
  deriving Repr, DecidableEq

/-- The body of the per-file loop in `scan_folder`: scan one asset,
and the folder verdict with the file verdict, and record the failure status
and the per-file issues. -/
def scanFolderStep (acc : Bool × List String) (f : FileRec) : Bool × List String :=
  let r := scanAsset f.name f.data
  (acc.1 && r.1,
    acc.2 ++ (if r.1 then [] else [f.name ++ ": FAIL"]) ++ r.2)

/-- `scan_folder` (scanner.py lines 112-134), on the list of `*.asset` files
found under the folder.  It returns the Bool of the source together with the
messages logged with FAIL status (count mismatch, basename mismatch, per-file
failures and their issues). -/
def scanFolder (files : List FileRec) : Bool × List String :=
  if files.length ≠ 4 then
    (false, ["Invalid asset count: found " ++ toString files.length ++ ", expected 4"])
  else
    let basenames := (files.map fun f => f.name.drop 2).dedup
    if 1 < basenames.length then
      (false, ["Name mismatch: " ++ String.intercalate ", " basenames])
    else
      files.foldl scanFolderStep (true, [])

/-! ### Concrete inputs used by the closed theorems -/

/-- A container holding only slot 4 (Background), populated through
the import path with a 52-byte texture header and a 100-byte payload. -/
def backgroundOnly : AssetFile :=
  importEntry AssetFile.init 4 (List.replicate 52 3) (List.replicate 100 9)

/-- Screenshots 1-3 imported in ascending order into slots 5, 6, 7
(convert.py import path). -/
def threeShots : AssetFile :=
  importEntry
    (importEntry (importEntry AssetFile.init 5 (List.replicate 52 1) [5])
      6 (List.replicate 52 1) [6])
    7 (List.replicate 52 1) [7]

/-- The same three imports through the asset_file.py variant. -/
def threeShotsAF : AssetFile :=
  afImportEntry
    (afImportEntry (afImportEntry AssetFile.init 5 (List.replicate 52 1) [5])
      6 (List.replicate 52 1) [6])
    7 (List.replicate 52 1) [7]

/-- A well-formed container file, every u32 field stored in the byte order
`extract_image` expects (big-endian): slots 0 and 1 populated, both of size
1, offset fields 0; the two payload bytes are 17 (slot 0, at position 2048)
and 42 (slot 1, at position 2049). -/
def twoSlotFile : List Nat :=
  [0x52, 0x58, 0x45, 0x41] ++ [0, 0, 0, 1] ++ [0, 0, 0, 2] ++ [0, 0, 0, 3] ++
    [0, 0, 0, 0] ++
  ([0, 0, 0, 0] ++ [0, 0, 0, 1] ++ [0, 0, 0, 0] ++ List.replicate 52 0) ++
  ([0, 0, 0, 0] ++ [0, 0, 0, 1] ++ [0, 0, 0, 0] ++ List.replicate 52 0) ++
  List.replicate (23 * 64) 0 ++ List.replicate 428 0 ++ [17] ++ [42]

/-- `twoSlotFile` with slot 1's on-disk offset field set to 1 instead of 0. -/
def twoSlotFileOff1 : List Nat :=
  [0x52, 0x58, 0x45, 0x41] ++ [0, 0, 0, 1] ++ [0, 0, 0, 2] ++ [0, 0, 0, 3] ++
    [0, 0, 0, 0] ++
  ([0, 0, 0, 0] ++ [0, 0, 0, 1] ++ [0, 0, 0, 0] ++ List.replicate 52 0) ++
  ([0, 0, 0, 1] ++ [0, 0, 0, 1] ++ [0, 0, 0, 0] ++ List.replicate 52 0) ++
  List.replicate (23 * 64) 0 ++ List.replicate 428 0 ++ [17] ++ [42]

/-- A truncated container file: valid magic and version, slot 0 populated
with declared size 4, but total length only 2049 — one payload byte (7)
instead of four. -/
def truncFile : List Nat :=
  [0x52, 0x58, 0x45, 0x41] ++ [0, 0, 0, 1] ++ [0, 0, 0, 4] ++ [0, 0, 0, 0] ++
    [0, 0, 0, 0] ++
  ([0, 0, 0, 0] ++ [0, 0, 0, 4] ++ [0, 0, 0, 0] ++ List.replicate 52 0) ++
  List.replicate (24 * 64) 0 ++ List.replicate 428 0 ++ [7]

/-- A minimal well-formed container file: valid magic and version, every
slot empty, exactly 2048 bytes. -/
def emptyContainerFile : List Nat :=
  [0x52, 0x58, 0x45, 0x41] ++ [0, 0, 0, 1] ++ List.replicate 2040 0

/-- A BK-prefixed scanner input whose populated record 4 carries the
Background signature in the record's LAST four bytes (offset 60..63, where
the spec says the scanner reads) and zero bytes at record offset 48..51
(where the scanner actually reads). -/
def sigAt60File : List Nat :=
  [0x52, 0x58, 0x45, 0x41] ++ List.replicate 16 0 ++
  List.replicate (4 * 64) 0 ++
  ([0, 0, 0, 0] ++ [0, 0, 0, 1] ++ [0, 0, 0, 0] ++ List.replicate 36 0 ++
    [0, 0, 0, 0] ++ List.replicate 8 0 ++ [0x00, 0x59, 0xe4, 0xff])

/-- The same record with the Background signature moved to record offset
48..51 and zero bytes at 60..63. -/
def sigAt48File : List Nat :=
  [0x52, 0x58, 0x45, 0x41] ++ List.replicate 16 0 ++
  List.replicate (4 * 64) 0 ++
  ([0, 0, 0, 0] ++ [0, 0, 0, 1] ++ [0, 0, 0, 0] ++ List.replicate 36 0 ++
    [0x00, 0x59, 0xe4, 0xff] ++ List.replicate 8 0 ++ [0, 0, 0, 0])

/-- An SS-prefixed scanner input whose record 10 (screenshot 6) is populated;
records 0..9 are empty. -/
def ssSlot10File : List Nat :=
  [0x52, 0x58, 0x45, 0x41] ++ List.replicate 16 0 ++
  List.replicate (10 * 64) 0 ++
  ([0, 0, 0, 0] ++ [0, 0, 0, 1] ++ [0, 0, 0, 0] ++ List.replicate 52 0)

/-- A folder holding three container files. -/
def threeAssetFolder : List FileRec :=
  [⟨"BKtitle.asset", []⟩, ⟨"GCtitle.asset", []⟩, ⟨"SStitle.asset", []⟩]

/-- A 20-byte buffer carrying only a valid magic word. -/
def magicOnlyFile : List Nat := [0x52, 0x58, 0x45, 0x41] ++ List.replicate 16 0

/-! ### Unfolding lemmas for the decoder -/

/-- A buffer shorter than the 2048-byte alignment boundary is rejected
outright. -/
theorem extractImage_len_error (d : List Nat) (t : Nat) (h1 : d.length < ALIGNMENT) :
    extractImage d t = .error "Invalid asset file size" := by
  simp only [extractImage]
  rw [if_pos h1]

theorem extractImage_version_error (d : List Nat) (t : Nat)
    (h1 : ¬ d.length < ALIGNMENT)
    (h2 : swapUInt32 (readLE d 0) = MAGIC)
    (h3 : swapUInt32 (readLE d 4) ≠ VERSION) :
    extractImage d t = .error "Unsupported asset file version" := by
  simp only [extractImage]
  rw [if_neg h1, if_neg (by simp [h2]), if_pos h3]

theorem extractImage_eq_ok (d : List Nat) (t : Nat)
    (h1 : ¬ d.length < ALIGNMENT)
    (h2 : swapUInt32 (readLE d 0) = MAGIC)
    (h3 : swapUInt32 (readLE d 4) = VERSION)
    (h4 : swapUInt32 (readLE d (HEADER_SIZE + t * ENTRY_SIZE + 4)) ≠ 0) :
    extractImage d t = .ok ⟨swapUInt32 (readLE d 12), swapUInt32 (readLE d 16),
      some (swapUInt32 (readLE d (HEADER_SIZE + t * ENTRY_SIZE + 4)),
        (d.drop (HEADER_SIZE + t * ENTRY_SIZE + 12)).take 52,
        (d.drop (calculateDataOffset 25 + swapUInt32 (readLE d (HEADER_SIZE + t * ENTRY_SIZE)))).take
          (swapUInt32 (readLE d (HEADER_SIZE + t * ENTRY_SIZE + 4))))⟩ := by
  simp only [extractImage]
  rw [if_neg h1, if_neg (by simp [h2]), if_neg (by simp [h3]), if_neg h4]

/-- A magic mismatch is rejected before anything else is read. -/
theorem extractImage_magic_error (d : List Nat) (t : Nat)
    (h1 : ¬ d.length < ALIGNMENT)
    (h2 : swapUInt32 (readLE d 0) ≠ MAGIC) :
    extractImage d t = .error "Invalid asset file magic" := by
  simp only [extractImage]
  rw [if_neg h1, if_pos h2]

/-- A slot whose on-disk size word is zero decodes to "absent". -/
theorem extractImage_eq_none (d : List Nat) (t : Nat)
    (h1 : ¬ d.length < ALIGNMENT)
    (h2 : swapUInt32 (readLE d 0) = MAGIC)
    (h3 : swapUInt32 (readLE d 4) = VERSION)
    (h4 : swapUInt32 (readLE d (HEADER_SIZE + t * ENTRY_SIZE + 4)) = 0) :
    extractImage d t =
      .ok ⟨swapUInt32 (readLE d 12), swapUInt32 (readLE d 16), none⟩ := by
  simp only [extractImage]
  rw [if_neg h1, if_neg (by simp [h2]), if_neg (by simp [h3]), if_pos h4]

/-! ### Claim theorems (closed evaluations) -/

/-- C1: the round-trip claim fails on the code.  `save_asset` writes the
version word little-endian while `extract_image` byte-swaps what it reads,
so decoding the bytes written by encode reads version 0x01000000 (16777216)
instead of 1 and fails the version check — no container comes back at all,
let alone one with the same flags, screenshotCount and per-slot data. -/
theorem C1_encode_decode_version_mismatch :
    swapUInt32 (readLE (saveAsset backgroundOnly) 4) = 16777216 ∧
    extractImage (saveAsset backgroundOnly) 4 =
      .error "Unsupported asset file version" := by
  constructor
  · rfl
  · refine extractImage_version_error _ _ ?_ (by rfl) ?_
    · have h : (saveAsset backgroundOnly).length = 2148 := by rfl
      rw [h]; decide
    · have h : swapUInt32 (readLE (saveAsset backgroundOnly) 4) = 16777216 := by rfl
      rw [h]; decide

/-- C2: decode locates a slot's payload at `_calculate_data_offset() +
on-disk offset field`, not at the alignment boundary plus the sum of lower
slots' sizes.  On a well-formed file with slots 0 and 1 populated (sizes 1,
offset fields 0), decoding slot 1 returns slot 0's payload byte 17 even
though slot 1's payload byte 42 sits at 2048 + size(slot 0) = 2049; and
raising slot 1's on-disk offset field to 1 changes the result to 42,
showing the offset field is exactly what decode trusts. -/
theorem C2_decode_trusts_offset_field :
    extractImage twoSlotFile 1 =
      .ok ⟨3, 0, some (1, List.replicate 52 0, [17])⟩ ∧
    (twoSlotFile.drop 2049).take 1 = [42] ∧
    extractImage twoSlotFileOff1 1 =
      .ok ⟨3, 0, some (1, List.replicate 52 0, [42])⟩ := by
  refine ⟨?_, by rfl, ?_⟩
  · rw [extractImage_eq_ok _ _ ?_ (by rfl) (by rfl) ?_]
    · rfl
    · have h : twoSlotFile.length = 2050 := by rfl
      rw [h]; decide
    · have h : swapUInt32 (readLE twoSlotFile (HEADER_SIZE + 1 * ENTRY_SIZE + 4)) = 1 := by rfl
      rw [h]; decide
  · rw [extractImage_eq_ok _ _ ?_ (by rfl) (by rfl) ?_]
    · rfl
    · have h : twoSlotFileOff1.length = 2050 := by rfl
      rw [h]; decide
    · have h : swapUInt32 (readLE twoSlotFileOff1 (HEADER_SIZE + 1 * ENTRY_SIZE + 4)) = 1 := by rfl
      rw [h]; decide

/-- C4: importing screenshots 1-3 into slots 5, 6, 7 sets flag bits 5, 6
and 7 as claimed, but `import_image` calls `_update_screenshot_count()`
BEFORE storing the new entry, so the count only sees previously stored
screenshots and ends at 2, not 3.  (The asset_file.py variant gets the
count right but resets `flags` on every import, keeping only bit 7.) -/
theorem C4_flag_bits_set_but_count_lags :
    threeShots.flags = 224 ∧
    threeShots.flags.testBit 5 = true ∧
    threeShots.flags.testBit 6 = true ∧
    threeShots.flags.testBit 7 = true ∧
    threeShots.screenshot_count = 2 ∧
    threeShotsAF.flags = 128 ∧
    threeShotsAF.screenshot_count = 3 := by
  refine ⟨by rfl, by rfl, by rfl, by rfl, by rfl, by rfl, by rfl⟩

/-- C3 counterexample: a populated BK record carrying the exact Background
signature in its last four bytes (record offset 60..63) is still flagged
"Invalid metadata", because the scanner compares the bytes at record offset
48..51 (here zero); moving the same signature to offset 48..51 removes the
issue.  So the format signature is not read from record offset 60. -/
theorem C3_counterexample :
    (sigAt60File.drop (20 + 64 * 4 + 60)).take 4 = [0x00, 0x59, 0xe4, 0xff] ∧
    EXPECTED_TYPES "BK" 4 = some "Background" ∧
    ASSET_PATTERNS [0x00, 0x59, 0xe4, 0xff] = some "Background" ∧
    scanAsset "BKtitle.asset" sigAt60File =
      (false, ["Invalid metadata at 4: 00000000", "Size mismatch for BK"]) ∧
    scanAsset "BKtitle.asset" sigAt48File =
      (false, ["Size mismatch for BK"]) := by
  refine ⟨by rfl, by rfl, by rfl, by rfl, by rfl⟩

/-- C6 counterexample: a file with a valid header, slot 0 declared with
size 4, but total length 2049 — three bytes short of the computed payload
end 2052.  Decoding slot 0 does not fail: Python slicing clips the payload
to the single available byte and decode returns it. -/
theorem C6_counterexample :
    truncFile.length = 2049 ∧
    isError (extractImage truncFile 0) = false ∧
    extractImage truncFile 0 =
      .ok ⟨0, 0, some (4, List.replicate 52 0, [7])⟩ := by
  have hok : extractImage truncFile 0 =
      .ok ⟨0, 0, some (4, List.replicate 52 0, [7])⟩ := by
    rw [extractImage_eq_ok _ _ ?_ (by rfl) (by rfl) ?_]
    · rfl
    · have h : truncFile.length = 2049 := by rfl
      rw [h]; decide
    · have h : swapUInt32 (readLE truncFile (HEADER_SIZE + 0 * ENTRY_SIZE + 4)) = 4 := by rfl
      rw [h]; decide
  exact ⟨by rfl, by rw [hok]; rfl, hok⟩

/-- C8 counterexample: the asset_file.py encoder closes its file handle at
the end of the `with` block that wrote only the 20-byte header; the very
next write raises, the `except` swallows the error and returns False —
a failing save that leaves a nonempty 20-byte partial file on disk, which
decode rejects.  The byte sequence is not built before writing. -/
theorem C8_counterexample :
    (afSaveAsset backgroundOnly).1 = false ∧
    (afSaveAsset backgroundOnly).2 ≠ [] ∧
    (afSaveAsset backgroundOnly).2.length = 20 ∧
    isError (extractImage (afSaveAsset backgroundOnly).2 4) = true := by
  refine ⟨by rfl, ?_, by rfl, ?_⟩
  · intro h
    have h2 : (afSaveAsset backgroundOnly).2.length = 20 := by rfl
    rw [h] at h2
    exact absurd h2 (by decide)
  · have h : (afSaveAsset backgroundOnly).2.length = 20 := by rfl
    rw [extractImage_len_error _ _ (by rw [h]; decide)]
    rfl

/-- C9 counterexample: for a file whose 2-letter name prefix is unknown but
whose magic word is corrupt, `scan_asset` short-circuits with the single
issue "Invalid magic" — the result is invalid, but carries no "Read error"
issue, because the table lookups are never reached. -/
theorem C9_counterexample :
    EXPECTED_ENTRIES "XX" = none ∧
    scanAsset "XXbad.asset" [0, 0, 0, 0] = (false, ["Invalid magic"]) ∧
    strHasPrefix "Read error: " "Invalid magic" = false := by
  refine ⟨by rfl, by rfl, by rfl⟩


/-! ### Shared helper lemmas -/

theorem calculateDataOffset_25 : calculateDataOffset 25 = 2048 := by rfl

theorem getD_set_ne (l : List Nat) (p q b : Nat) (h : p ≠ q) :
    (l.set p b).getD q 0 = l.getD q 0 := by
  simp [List.getD_eq_getElem?_getD, List.getElem?_set_ne h]

theorem readLE_set_ne (l : List Nat) (p r b : Nat) (h : p < r ∨ r + 4 ≤ p) :
    readLE (l.set p b) r = readLE l r := by
  unfold readLE
  rw [getD_set_ne l p r b (by omega), getD_set_ne l p (r + 1) b (by omega),
    getD_set_ne l p (r + 2) b (by omega), getD_set_ne l p (r + 3) b (by omega)]

theorem slice4_set_ne (l : List Nat) (p s b : Nat) (h : p < s ∨ s + 4 ≤ p) :
    ((l.set p b).drop s).take 4 = (l.drop s).take 4 := by
  apply List.ext_getElem?
  intro n
  simp only [List.getElem?_take, List.getElem?_drop]
  split
  · rw [List.getElem?_set_ne (by omega)]
  · rfl

/-- The entry loop reads a file only through its length, per-record size
word and per-record signature slice; two buffers agreeing on those agree on
the loop result. -/
theorem scanLoop_congr (pfx : String) (d1 d2 : List Nat) (hlen : d1.length = d2.length) :
    ∀ fuel idx count issues,
      (∀ i, idx ≤ i → i < idx + fuel →
        readLE d1 (20 + 64 * i + 4) = readLE d2 (20 + 64 * i + 4) ∧
        (d1.drop (20 + 64 * i + 48)).take 4 = (d2.drop (20 + 64 * i + 48)).take 4) →
      scanLoop pfx d1 fuel idx count issues = scanLoop pfx d2 fuel idx count issues := by
  intro fuel
  induction fuel with
  | zero => intro idx count issues _; rfl
  | succ n ih =>
    intro idx count issues hreads
    obtain ⟨hsz, hmeta⟩ := hreads idx (Nat.le_refl _) (by omega)
    simp only [scanLoop]
    rw [hlen, hsz, hmeta]
    by_cases hbreak : d2.length < 20 + 64 * idx + 64
    · rw [if_pos hbreak, if_pos hbreak]
    · rw [if_neg hbreak, if_neg hbreak]
      by_cases hsz0 : 0 < swapUInt32 (readLE d2 (20 + 64 * idx + 4))
      · rw [if_pos hsz0, if_pos hsz0]
        exact ih (idx + 1) (count + 1) _
          (fun i hi1 hi2 => hreads i (by omega) (by omega))
      · rw [if_neg hsz0, if_neg hsz0]
        exact ih (idx + 1) count issues
          (fun i hi1 hi2 => hreads i (by omega) (by omega))

/-- Issues already collected survive the rest of the entry loop. -/
theorem scanLoop_issues_mono (pfx : String) (d : List Nat) :
    ∀ (fuel idx count : Nat) (issues : List String) (s : String),
      s ∈ issues → s ∈ (scanLoop pfx d fuel idx count issues).2 := by
  intro fuel
  induction fuel with
  | zero => intro idx count issues s hs; exact hs
  | succ n ih =>
    intro idx count issues s hs
    simp only [scanLoop]
    by_cases hbreak : d.length < 20 + 64 * idx + 64
    · rw [if_pos hbreak]; exact hs
    · rw [if_neg hbreak]
      by_cases hsz : 0 < swapUInt32 (readLE d (20 + 64 * idx + 4))
      · rw [if_pos hsz]
        by_cases hval : validateMetadata pfx idx ((d.drop (20 + 64 * idx + 48)).take 4) = true
        · rw [if_pos hval]
          exact ih (idx + 1) (count + 1) issues s hs
        · rw [if_neg hval]
          exact ih (idx + 1) (count + 1) _ s (List.mem_append_left _ hs)
      · rw [if_neg hsz]
        exact ih (idx + 1) count issues s hs

/-- If the loop reaches a populated record whose signature check fails, the
"Invalid metadata" issue for that record is in the loop result. -/
theorem scanLoop_adds_issue (pfx : String) (d : List Nat) (target : Nat)
    (hrec : 20 + 64 * target + 64 ≤ d.length)
    (hsz : 0 < swapUInt32 (readLE d (20 + 64 * target + 4)))
    (hval : validateMetadata pfx target ((d.drop (20 + 64 * target + 48)).take 4) = false) :
    ∀ (fuel idx count : Nat) (issues : List String),
      idx ≤ target → target < idx + fuel →
      ("Invalid metadata at " ++ toString target ++ ": " ++
          bytesHex ((d.drop (20 + 64 * target + 48)).take 4)) ∈
        (scanLoop pfx d fuel idx count issues).2 := by
  intro fuel
  induction fuel with
  | zero => intro idx count issues h1 h2; omega
  | succ n ih =>
    intro idx count issues h1 h2
    simp only [scanLoop]
    rw [if_neg (by omega)]
    by_cases heq : idx = target
    · subst heq
      rw [if_pos hsz, if_neg (by rw [hval]; exact Bool.false_ne_true)]
      exact scanLoop_issues_mono pfx d n (idx + 1) (count + 1) _ _
        (List.mem_append_right _ (List.mem_singleton_self _))
    · by_cases hsz0 : 0 < swapUInt32 (readLE d (20 + 64 * idx + 4))
      · rw [if_pos hsz0]
        by_cases hval0 : validateMetadata pfx idx ((d.drop (20 + 64 * idx + 48)).take 4) = true
        · rw [if_pos hval0]
          exact ih (idx + 1) (count + 1) issues (by omega) (by omega)
        · rw [if_neg hval0]
          exact ih (idx + 1) (count + 1) _ (by omega) (by omega)
      · rw [if_neg hsz0]
        exact ih (idx + 1) count issues (by omega) (by omega)

/-- The folder verdict is the conjunction of the per-file verdicts. -/
theorem foldl_scanFolderStep_fst (files : List FileRec) :
    ∀ (b : Bool) (iss : List String),
      (files.foldl scanFolderStep (b, iss)).1 =
        (b && files.all fun f => (scanAsset f.name f.data).1) := by
  induction files with
  | nil => intro b iss; simp
  | cons x xs ih =>
    intro b iss
    simp only [List.foldl_cons, List.all_cons]
    rw [scanFolderStep, ih]
    simp [Bool.and_assoc]

/-- A list deduplicates to at most one element exactly when all its
elements are equal. -/
theorem dedup_length_le_one_iff (l : List String) :
    l.dedup.length ≤ 1 ↔ ∀ a ∈ l, ∀ c ∈ l, a = c := by
  constructor
  · intro h a ha c hc
    have ha2 : a ∈ l.dedup := List.mem_dedup.2 ha
    have hc2 : c ∈ l.dedup := List.mem_dedup.2 hc
    cases hd : l.dedup with
    | nil => rw [hd] at ha2; exact absurd ha2 (List.not_mem_nil a)
    | cons x xs =>
      have hxs : xs = [] := by
        rw [hd, List.length_cons] at h
        exact List.length_eq_zero.1 (by omega)
      rw [hd, hxs] at ha2 hc2
      simp at ha2 hc2
      rw [ha2, hc2]
  · intro h
    by_contra hlen
    push_neg at hlen
    cases hd : l.dedup with
    | nil => rw [hd] at hlen; simp at hlen
    | cons x xs =>
      cases xs with
      | nil => rw [hd] at hlen; simp at hlen
      | cons y ys =>
        have hx : x ∈ l := List.mem_dedup.1 (by rw [hd]; simp)
        have hy : y ∈ l := List.mem_dedup.1 (by rw [hd]; simp)
        have hnd := l.nodup_dedup
        rw [hd] at hnd
        have hxy : x ≠ y := by
          intro hcon
          exact (List.nodup_cons.1 hnd).1 (by rw [hcon]; simp)
        exact hxy (h x hx y hy)

theorem strHasPrefix_append (p q : String) : strHasPrefix p (p ++ q) = true := by
  rw [strHasPrefix, String.data_append]
  exact List.isPrefixOf_iff_prefix.2 (List.prefix_append _ _)

theorem flatten_flatMap (l : List Entry) (f : Entry → List (List Nat)) :
    (l.flatMap f).flatten = l.flatMap fun e => (f e).flatten := by
  induction l with
  | nil => rfl
  | cons x xs ih => simp [List.flatMap_cons, List.flatten_append, ih]

theorem flatten_filter_video (l : List Entry) :
    ((l.filter fun e => e.video_data.length > 0).map fun e => e.video_data).flatten =
      l.flatMap fun e => e.video_data := by
  induction l with
  | nil => rfl
  | cons x xs ih =>
    by_cases h : x.video_data.length > 0
    · simp [List.filter_cons, h, ih]
    · have hnil : x.video_data = [] := List.length_eq_zero.1 (by omega)
      simp [List.filter_cons, h, ih, hnil]

/-- A latched write error is final: the remaining writes change nothing. -/
theorem foldl_latched (chunks : List (List Nat)) (f : FileH) (e : String) :
    chunks.foldl
      (fun s ch =>
        match s with
        | (g, some e2) => (g, some e2)
        | (g, none) =>
          match fwrite g ch with
          | .ok g2 => (g2, none)
          | .error e2 => (g, some e2))
      (f, some e) = (f, some e) := by
  induction chunks with
  | nil => rfl
  | cons c cs ih => exact ih

/-- Writing any nonempty chunk sequence to a closed handle fails at the
first chunk and leaves the bytes untouched. -/
theorem runWrites_closed (bs : List Nat) (c : List Nat) (cs : List (List Nat)) :
    runWrites ⟨bs, false⟩ (c :: cs) = (⟨bs, false⟩, some "I/O operation on closed file") := by
  simp only [runWrites, List.foldl_cons, fwrite]
  exact foldl_latched cs _ _

theorem afLateChunks_ne_nil (a : AssetFile) : afLateChunks a ≠ [] := by
  apply List.ne_nil_of_length_pos
  simp [afLateChunks, List.length_append]

/-! ### Claim theorems (universal statements) -/

/-- C5: decoding fails exactly when the buffer is shorter than 2048 bytes,
the (byte-swapped) magic word differs from AXER's constant, or the
(byte-swapped) version word differs from 1; every other buffer decodes
without error.  The slot bound matches the 25-slot table of the format. -/
theorem C5_decode_rejects_iff (d : List Nat) (t : Nat) (ht : t ≤ 24) :
    isError (extractImage d t) = true ↔
      (d.length < 2048 ∨ swapUInt32 (readLE d 0) ≠ MAGIC ∨
        swapUInt32 (readLE d 4) ≠ VERSION) := by
  simp only [extractImage]
  split_ifs with h1 h2 h3 h4 <;>
    simp_all [isError, ALIGNMENT]

/-- Witness for C5 on a concrete well-formed empty container. -/
theorem C5_decode_rejects_iff_witness : (0 : Nat) ≤ 24 ∧
    (isError (extractImage emptyContainerFile 0) = true ↔
      (emptyContainerFile.length < 2048 ∨ swapUInt32 (readLE emptyContainerFile 0) ≠ MAGIC ∨
        swapUInt32 (readLE emptyContainerFile 4) ≠ VERSION)) :=
  ⟨by decide, C5_decode_rejects_iff emptyContainerFile 0 (by decide)⟩

/-- C6 (amended): when the three header checks pass and the slot's size
word is nonzero, decode never fails on a truncated buffer; it returns a
payload clipped to the bytes available after position 2048 + offset-field,
of length min(size, length - (2048 + offset)). -/
theorem C6_truncated_payload_clipped (d : List Nat) (t : Nat)
    (h1 : ¬ d.length < 2048)
    (h2 : swapUInt32 (readLE d 0) = MAGIC)
    (h3 : swapUInt32 (readLE d 4) = VERSION)
    (h4 : swapUInt32 (readLE d (HEADER_SIZE + t * ENTRY_SIZE + 4)) ≠ 0) :
    isError (extractImage d t) = false ∧
    ∃ hdr pay, extractImage d t =
        .ok ⟨swapUInt32 (readLE d 12), swapUInt32 (readLE d 16),
          some (swapUInt32 (readLE d (HEADER_SIZE + t * ENTRY_SIZE + 4)), hdr, pay)⟩ ∧
      pay.length = min (swapUInt32 (readLE d (HEADER_SIZE + t * ENTRY_SIZE + 4)))
        (d.length - (2048 + swapUInt32 (readLE d (HEADER_SIZE + t * ENTRY_SIZE)))) := by
  have h := extractImage_eq_ok d t (by simpa [ALIGNMENT] using h1) h2 h3 h4
  rw [calculateDataOffset_25] at h
  refine ⟨by rw [h]; rfl, _, _, h, ?_⟩
  rw [List.length_take, List.length_drop]

/-- Witness for C6 on the concrete truncated file. -/
theorem C6_truncated_payload_clipped_witness :
    (¬ truncFile.length < 2048) ∧
    (isError (extractImage truncFile 0) = false ∧
      ∃ hdr pay, extractImage truncFile 0 =
          .ok ⟨swapUInt32 (readLE truncFile 12), swapUInt32 (readLE truncFile 16),
            some (swapUInt32 (readLE truncFile (HEADER_SIZE + 0 * ENTRY_SIZE + 4)), hdr, pay)⟩ ∧
        pay.length = min (swapUInt32 (readLE truncFile (HEADER_SIZE + 0 * ENTRY_SIZE + 4)))
          (truncFile.length - (2048 + swapUInt32 (readLE truncFile (HEADER_SIZE + 0 * ENTRY_SIZE))))) := by
  have hl : truncFile.length = 2049 := by rfl
  have hs : swapUInt32 (readLE truncFile (HEADER_SIZE + 0 * ENTRY_SIZE + 4)) = 4 := by rfl
  exact ⟨by rw [hl]; decide,
    C6_truncated_payload_clipped truncFile 0 (by rw [hl]; decide) (by rfl) (by rfl)
      (by rw [hs]; decide)⟩

/-- C3 (amended): the scanner never examines a record's last four bytes
(record offset 60..63): overwriting any of them changes nothing in the
scan result, for every file, record and value — the signature it checks
is the slice at record offset 48..51, as the counterexample exhibits. -/
theorem C3_signature_not_read_at_60 (name : String) (d : List Nat) (idx j b : Nat)
    (hj : j < 4) (hidx : idx < 25) :
    scanAsset name (d.set (20 + 64 * idx + 60 + j) b) = scanAsset name d := by
  have hlen : (d.set (20 + 64 * idx + 60 + j) b).length = d.length := List.length_set d _ b
  have hr0 : readLE (d.set (20 + 64 * idx + 60 + j) b) 0 = readLE d 0 :=
    readLE_set_ne d _ 0 b (by omega)
  have hloop : scanLoop (name.take 2) (d.set (20 + 64 * idx + 60 + j) b) 25 0 0 [] =
      scanLoop (name.take 2) d 25 0 0 [] := by
    refine scanLoop_congr _ _ _ hlen 25 0 0 [] ?_
    intro i _ hi
    constructor
    · exact readLE_set_ne d _ _ b (by omega)
    · exact slice4_set_ne d _ _ b (by omega)
  simp only [scanAsset]
  rw [hlen, hr0, hloop]

/-- Witness for the C3 amendment at a concrete file and byte. -/
theorem C3_signature_not_read_at_60_witness :
    scanAsset "BKtitle.asset" (sigAt48File.set (20 + 64 * 4 + 60 + 0) 99) =
      scanAsset "BKtitle.asset" sigAt48File :=
  C3_signature_not_read_at_60 "BKtitle.asset" sigAt48File 4 0 99 (by decide) (by decide)

/-- C7: a folder scan reports valid exactly when there are exactly 4 asset
files, all names agree once their 2-letter prefix is stripped, and every
file passes scan_asset; and for any directory of 3 container files the
result is false with the "Invalid asset count" issue, independent of the
files' contents (no per-file check runs). -/
theorem C7_scan_folder_valid_iff :
    (∀ files : List FileRec,
      ((scanFolder files).1 = true ↔
        (files.length = 4 ∧
          (∀ f ∈ files, ∀ g ∈ files, f.name.drop 2 = g.name.drop 2) ∧
          (∀ f ∈ files, (scanAsset f.name f.data).1 = true)))) ∧
    (∀ files : List FileRec, files.length = 3 →
      scanFolder files = (false, ["Invalid asset count: found 3, expected 4"])) := by
  constructor
  · intro files
    simp only [scanFolder]
    by_cases h4 : files.length ≠ 4
    · rw [if_pos h4]
      exact iff_of_false (by simp) (fun h => h4 h.1)
    · push_neg at h4
      rw [if_neg (by simp [h4])]
      have hsfx : (∀ a ∈ files.map fun f => f.name.drop 2,
          ∀ c ∈ files.map fun f => f.name.drop 2, a = c) ↔
          (∀ f ∈ files, ∀ g ∈ files, f.name.drop 2 = g.name.drop 2) := by
        constructor
        · intro h f hf g hg
          exact h _ (List.mem_map_of_mem _ hf) _ (List.mem_map_of_mem _ hg)
        · rintro h a ha c hc
          obtain ⟨f, hf, rfl⟩ := List.mem_map.1 ha
          obtain ⟨g, hg, rfl⟩ := List.mem_map.1 hc
          exact h f hf g hg
      by_cases hdup : 1 < ((files.map fun f => f.name.drop 2).dedup).length
      · rw [if_pos hdup]
        refine iff_of_false (by simp) (fun h => ?_)
        have := (dedup_length_le_one_iff _).2 (hsfx.2 h.2.1)
        omega
      · rw [if_neg hdup]
        rw [foldl_scanFolderStep_fst]
        simp only [Bool.true_and, List.all_eq_true]
        constructor
        · intro h
          refine ⟨h4, hsfx.1 ((dedup_length_le_one_iff _).1 (by omega)), fun f hf => h f hf⟩
        · intro h f hf
          exact h.2.2 f hf
  · intro files h3
    simp only [scanFolder]
    rw [if_pos (by omega), h3]
    rfl

/-- Witness for C7 on a concrete 3-file folder. -/
theorem C7_scan_folder_valid_iff_witness :
    scanFolder threeAssetFolder = (false, ["Invalid asset count: found 3, expected 4"]) :=
  C7_scan_folder_valid_iff.2 threeAssetFolder (by rfl)

/-- C8 (amended): `save_asset` does not build the byte sequence before
writing.  convert.py performs 5 separate header writes (20 bytes on disk
before anything else), and only the concatenation of all its write calls is
the complete container; the asset_file.py variant closes its handle after
those 5 writes, so every save fails, returning False and leaving exactly
the 20-byte header on disk. -/
theorem C8_incremental_writes (a : AssetFile) :
    (saveChunks a).flatten = saveAsset a ∧
    ((saveChunks a).take 5).flatten.length = 20 ∧
    (afSaveAsset a).1 = false ∧
    (afSaveAsset a).2 =
      packLE (swapUInt32 MAGIC) ++ packLE (swapUInt32 VERSION) ++ packLE (swapUInt32 0) ++
        packLE (swapUInt32 a.flags) ++ packLE (swapUInt32 a.screenshot_count) := by
  have hflat : (saveChunks a).flatten = saveAsset a := by
    simp only [saveChunks, saveAsset, List.flatten_append, List.flatten_cons]
    rw [flatten_flatMap, flatten_filter_video]
    simp [List.append_assoc]
  have hw : runWrites ⟨[], true⟩ (afHeaderChunks a) =
      (⟨packLE (swapUInt32 MAGIC) ++ packLE (swapUInt32 VERSION) ++ packLE (swapUInt32 0) ++
        packLE (swapUInt32 a.flags) ++ packLE (swapUInt32 a.screenshot_count), true⟩, none) := by
    rfl
  obtain ⟨c, cs, hcc⟩ : ∃ c cs, afLateChunks a = c :: cs := by
    cases h : afLateChunks a with
    | nil => exact absurd h (afLateChunks_ne_nil a)
    | cons c cs => exact ⟨c, cs, rfl⟩
  have haf : afSaveAsset a = (false,
      packLE (swapUInt32 MAGIC) ++ packLE (swapUInt32 VERSION) ++ packLE (swapUInt32 0) ++
        packLE (swapUInt32 a.flags) ++ packLE (swapUInt32 a.screenshot_count)) := by
    simp only [afSaveAsset]
    rw [hw]
    dsimp only
    rw [hcc, runWrites_closed]
    rfl
  exact ⟨hflat, by rfl, by rw [haf], by rw [haf]⟩

/-- Witness for C8 at a concrete container. -/
theorem C8_incremental_writes_witness :
    (saveChunks backgroundOnly).flatten = saveAsset backgroundOnly ∧
    ((saveChunks backgroundOnly).take 5).flatten.length = 20 ∧
    (afSaveAsset backgroundOnly).1 = false ∧
    (afSaveAsset backgroundOnly).2 =
      packLE (swapUInt32 MAGIC) ++ packLE (swapUInt32 VERSION) ++ packLE (swapUInt32 0) ++
        packLE (swapUInt32 backgroundOnly.flags) ++
        packLE (swapUInt32 backgroundOnly.screenshot_count) :=
  C8_incremental_writes backgroundOnly

/-- C9 (amended): `scan_asset` is total — every outcome is a (valid,
issues) pair — and for a filename whose 2-letter prefix is not BK/GC/GL/SS,
whenever the magic check does not itself fail first (the header is
unreadable or the magic is correct), the lookup KeyError is captured as an
issue beginning "Read error: " and the file is reported invalid. -/
theorem C9_unknown_pfx_read_error (name : String) (d : List Nat)
    (hp : EXPECTED_ENTRIES (name.take 2) = none)
    (hm : d.length < 4 ∨ swapUInt32 (readLE d 0) = MAGIC) :
    (scanAsset name d).1 = false ∧
    ∃ s ∈ (scanAsset name d).2, strHasPrefix "Read error: " s = true := by
  simp only [scanAsset]
  by_cases h4 : d.length < 4
  · rw [if_pos h4]
    exact ⟨rfl, "Read error: struct.error", by simp, by rfl⟩
  · have hmagic : swapUInt32 (readLE d 0) = MAGIC := hm.resolve_left h4
    rw [if_neg h4, if_neg (by simp [hmagic])]
    by_cases h20 : d.length < 20
    · rw [if_pos h20]
      exact ⟨rfl, "Read error: struct.error", by simp, by rfl⟩
    · rw [if_neg h20, hp]
      refine ⟨rfl, "Read error: KeyError " ++ name.take 2, by simp, ?_⟩
      rw [show ("Read error: KeyError " : String) = "Read error: " ++ "KeyError " from rfl,
        String.append_assoc]
      exact strHasPrefix_append _ _

/-- Witness for C9 on a concrete unknown-prefix name with a valid magic. -/
theorem C9_unknown_pfx_read_error_witness :
    EXPECTED_ENTRIES ("XXbad.asset".take 2) = none ∧
    ((scanAsset "XXbad.asset" magicOnlyFile).1 = false ∧
      ∃ s ∈ (scanAsset "XXbad.asset" magicOnlyFile).2, strHasPrefix "Read error: " s = true) :=
  ⟨by rfl, C9_unknown_pfx_read_error "XXbad.asset" magicOnlyFile (by rfl) (Or.inr (by rfl))⟩

/-- C10: for a populated record at a (prefix, slot) pair outside the
expected-type table and outside SS slots 5..9, the expected kind is None
and no pattern-table result ever equals it, so the scan flags "Invalid
metadata" for that slot regardless of the signature bytes. -/
theorem C10_unmapped_slot_always_flagged (name : String) (d : List Nat) (idx : Nat)
    (hidx : idx < 25)
    (hm : swapUInt32 (readLE d 0) = MAGIC)
    (hrec : 20 + 64 * idx + 64 ≤ d.length)
    (hsz : 0 < swapUInt32 (readLE d (20 + 64 * idx + 4)))
    (hmap : EXPECTED_TYPES (name.take 2) idx = none)
    (hss : ¬(name.take 2 = "SS" ∧ 5 ≤ idx ∧ idx ≤ 9)) :
    ("Invalid metadata at " ++ toString idx ++ ": " ++
      bytesHex ((d.drop (20 + 64 * idx + 48)).take 4)) ∈ (scanAsset name d).2 := by
  have hval : validateMetadata (name.take 2) idx
      ((d.drop (20 + 64 * idx + 48)).take 4) = false := by
    unfold validateMetadata
    rw [hmap]
    simp only [Option.orElse]
    rw [if_neg hss]
  have hmem := scanLoop_adds_issue (name.take 2) d idx hrec hsz hval 25 0 0 []
    (Nat.zero_le _) (by omega)
  simp only [scanAsset]
  rw [if_neg (by omega), if_neg (by simp [hm]), if_neg (by omega)]
  cases hE : EXPECTED_ENTRIES (name.take 2) with
  | none =>
    dsimp only
    exact List.mem_append_left _ hmem
  | some k =>
    dsimp only
    by_cases hv : validateSize d.length (name.take 2) = true
    · rw [if_pos hv]
      by_cases hc : (scanLoop (name.take 2) d 25 0 0 []).1 ≠ k
      · rw [if_pos hc]
        exact List.mem_append_left _ hmem
      · rw [if_neg hc]
        exact hmem
    · rw [if_neg hv]
      by_cases hc : (scanLoop (name.take 2) d 25 0 0 []).1 ≠ k
      · rw [if_pos hc]
        exact List.mem_append_left _ (List.mem_append_left _ hmem)
      · rw [if_neg hc]
        exact List.mem_append_left _ hmem

/-- Witness for C10: slot 10 of an SS file is flagged even with all-zero
signature bytes. -/
theorem C10_unmapped_slot_always_flagged_witness :
    "Invalid metadata at 10: 00000000" ∈ (scanAsset "SSgame.asset" ssSlot10File).2 := by
  have h := C10_unmapped_slot_always_flagged "SSgame.asset" ssSlot10File 10 (by decide) (by rfl)
    (by have hl : ssSlot10File.length = 724 := by rfl
        omega)
    (by have hs : swapUInt32 (readLE ssSlot10File (20 + 64 * 10 + 4)) = 1 := by rfl
        omega)
    (by rfl) (by decide)
  have he : ("Invalid metadata at " ++ toString 10 ++ ": " ++
      bytesHex ((ssSlot10File.drop (20 + 64 * 10 + 48)).take 4)) =
      "Invalid metadata at 10: 00000000" := by rfl
  rw [he] at h
  exact h

end Aurora
